import Mathlib

/-!
Verification development for the Doksi landing-page lead-capture system.

The repository has two source files:
* `script.js` — browser side: `formatPhoneE164`, `splitName`, `submitLead`
  (validation, payload construction, fan-out to two webhooks), and the quiz
  controller `handleNextStep` with its re-entrancy flag `isSubmitting`.
* `GOOGLE_APPS_SCRIPT.gs` — the webhook receiver `doPost` and `logError`.

The definitions below are a shallow embedding of those functions.  Platform
facilities that are not part of the repository (the `fetch` transport,
`JSON.parse`, the spreadsheet service) are modelled as explicit oracle inputs:
a fetch outcome is an `Except` value handed to the function, a parse outcome is
carried alongside the raw body, and a spreadsheet is a list of rows.
-/

/-- JS `\d` character class: the ASCII digits. -/
def isJsDigit (c : Char) : Bool := '0' ≤ c ∧ c ≤ '9'

/-- JS `\s` character class, restricted to the whitespace characters that can
realistically appear in a form input: space, tab, newline, carriage return,
vertical tab, form feed, no-break space. -/
def isJsWhitespace (c : Char) : Bool :=
  c = ' ' ∨ c = '\t' ∨ c = '\n' ∨ c = '\r' ∨ c = '\x0b' ∨ c = '\x0c' ∨ c = ' '

/-- JS `phone.replace(/\D/g, '')`: keep only the digits of a string. -/
def stripNonDigits (s : String) : String :=
  String.mk (s.toList.filter isJsDigit)

/-- JS `String.prototype.trim()`: drop leading and trailing whitespace. -/
def jsTrim (s : String) : String :=
  String.mk (((s.toList.dropWhile isJsWhitespace).reverse.dropWhile isJsWhitespace).reverse)

/-- JS `s.startsWith(p)` for a one-character pattern `p`. -/
def jsStartsWithChar (s : String) (c : Char) : Bool :=
  s.toList.head? = some c

/-- Accumulator-passing tokenizer: maximal nonempty runs of non-whitespace. -/
def wsTokensAux : List Char → List Char → List (List Char)
  | [], acc => if acc = [] then [] else [acc.reverse]
  | c :: rest, acc =>
    if isJsWhitespace c then
      if acc = [] then wsTokensAux rest [] else acc.reverse :: wsTokensAux rest []
    else
      wsTokensAux rest (c :: acc)

/-- JS `s.split(/\s+/)` on a trimmed string: its maximal nonempty runs of
non-whitespace, as strings.  (On the empty string JS yields `[""]` where this
yields `[]`; every use in the source guards the difference with `|| ''`.) -/
def jsSplitWs (s : String) : List String :=
  (wsTokensAux s.toList []).map String.mk

/-- JS `a || b` on an optional string: `b` when the field is absent or empty
(falsy), the string itself otherwise. -/
def jsOrStr (o : Option String) (d : String) : String :=
  match o with
  | none => d
  | some s => if s = "" then d else s

/-- JS truthiness of an optional string field: absent and `""` are falsy. -/
def jsTruthy (o : Option String) : Bool :=
  match o with
  | none => false
  | some s => s ≠ ""

/-- Embedding of `formatPhoneE164` (script.js lines 14–22): strip non-digits;
10 digits get a `+1` prefix, 11 digits starting with `1` get a bare `+`,
anything else falls back to a `+1` prefix. -/
def formatPhoneE164 (phone : String) : String :=
  let digits := stripNonDigits phone
  if digits.length = 10 then
    "+1" ++ digits
  else if digits.length = 11 ∧ jsStartsWithChar digits '1' then
    "+" ++ digits
  else
    "+1" ++ digits

/-- Embedding of `splitName` (script.js lines 27–33): trim, split on runs of
whitespace, first token is `first_name`, the rest joined with single spaces is
`last_name` (the JS `|| ''` fallbacks are identities on the empty string). -/
def splitName (fullName : String) : String × String :=
  let parts := jsSplitWs (jsTrim fullName)
  (parts.headD "", " ".intercalate (parts.drop 1))

/-- Embedding of the receiver-side phone normalization inside `doPost`
(GOOGLE_APPS_SCRIPT.gs lines 82–91): only a truthy phone that does not already
start with `+` is rewritten, and only when its digits number exactly 10, or
exactly 11 starting with `1`; otherwise the original string is kept. -/
def receiverNormalizePhone (phone : String) : String :=
  if phone ≠ "" ∧ ¬ jsStartsWithChar phone '+' then
    let digits := stripNonDigits phone
    if digits.length = 10 then
      "+1" ++ digits
    else if digits.length = 11 ∧ jsStartsWithChar digits '1' then
      "+" ++ digits
    else
      phone
  else
    phone

/-! ## Lead Submitter (`submitLead`, script.js lines 40–159)

The browser `fetch` transport is platform code; each outbound call's outcome
is an oracle input: `Except m r` is a thrown error with message `m` or a
settled HTTP response `r`, and the Google Sheets `response.json()` outcome is
a further oracle, since the body's JSON-ness is decided by the platform. -/

/-- Settled HTTP response, as `submitLead` inspects it. -/
structure JsResponse where
  ok : Bool
  status : Nat
  statusText : String
  deriving DecidableEq

/-- Parsed JSON body of the Google Sheets webhook response. -/
structure SheetsData where
  success : Bool
  error : Option String
  deriving DecidableEq

/-- Oracle for the two network calls of one `submitLead` run. -/
structure NetEnv where
  sheetsFetch : Except String JsResponse
  sheetsJson : Except String SheetsData
  zapierFetch : Except String JsResponse

/-- Browser ambience read while building the payload. -/
structure BrowserEnv where
  abTestVariant : Option String
  pageUrl : String
  nowIso : String
  deriving DecidableEq

/-- The quiz's in-memory `userData` record; absent fields are `none`. -/
structure UserData where
  homeowner : Option String := none
  name : Option String := none
  zip : Option String := none
  email : Option String := none
  phone : Option String := none
  deriving DecidableEq

/-- Per-sink tracking record `{ success, error }` of `submitLead`. -/
structure SinkResult where
  success : Bool
  error : Option String
  deriving DecidableEq

/-- Return value of `submitLead`. -/
structure SubmitResult where
  success : Bool
  error : Option String := none
  details : Option (SinkResult × SinkResult) := none
  deriving DecidableEq

/-- Observable network events of one `submitLead` run, in program order. -/
inductive SubmitEvent
  | dispatchSheets
  | settleSheets
  | dispatchZapier
  | settleZapier
  deriving DecidableEq

/-- Client-side required-field check (script.js lines 42–48): a field is
missing when absent, or empty, or blank after trimming (`!v || !v.trim()`). -/
def fieldBlank (o : Option String) : Bool :=
  match o with
  | none => true
  | some s => s = "" ∨ jsTrim s = ""

/-- First missing field of `['name', 'zip', 'email', 'phone']`, in the order
the validation loop visits them. -/
def firstMissingField (u : UserData) : Option String :=
  if fieldBlank u.name then some "name"
  else if fieldBlank u.zip then some "zip"
  else if fieldBlank u.email then some "email"
  else if fieldBlank u.phone then some "phone"
  else none

/-- JS `s.toLowerCase()` restricted to ASCII case mapping. -/
def jsToLower (s : String) : String :=
  String.mk (s.toList.map Char.toLower)

/-- The `quiz_answers` JSON blob (script.js lines 60–63), assuming the
homeowner answer and variant tag contain no characters JSON would escape. -/
def quizAnswersJson (homeowner abVariant : String) : String :=
  "\x7b\"homeowner\":\"" ++ homeowner ++ "\",\"ab_variant\":\"" ++ abVariant ++ "\"\x7d"

/-- Wire payload sent to both sinks (script.js lines 54–66). -/
structure LeadPayload where
  first_name : String
  last_name : String
  phone : String
  email : String
  zip : String
  quiz_answers : String
  page_url : String
  timestamp : String
  deriving DecidableEq

/-- Payload construction from a validated `userData` (script.js lines 50–66). -/
def buildPayload (benv : BrowserEnv) (u : UserData) : LeadPayload :=
  let split := splitName ((u.name).getD "")
  { first_name := split.1
    last_name := split.2
    phone := formatPhoneE164 ((u.phone).getD "")
    email := jsToLower (jsTrim ((u.email).getD ""))
    zip := jsTrim ((u.zip).getD "")
    quiz_answers := quizAnswersJson (jsOrStr u.homeowner "yes") (jsOrStr benv.abTestVariant "unknown")
    page_url := benv.pageUrl
    timestamp := benv.nowIso }

/-- Google Sheets dispatch (script.js lines 77–107): a thrown fetch, a non-ok
status, a non-JSON body, and a `success:false` body each land in the catch
block, recording the error message; only an ok response whose JSON reports
success yields a successful sink result. -/
def runSheetsDispatch (env : NetEnv) : SinkResult :=
  match env.sheetsFetch with
  | .error m => { success := false, error := some m }
  | .ok r =>
    if ¬ r.ok then
      { success := false, error := some ("HTTP " ++ toString r.status ++ ": " ++ r.statusText) }
    else
      match env.sheetsJson with
      | .error m => { success := false, error := some m }
      | .ok d =>
        if d.success then { success := true, error := none }
        else { success := false, error := some (jsOrStr d.error "Unknown error from webhook") }

/-- Zapier dispatch (script.js lines 110–132): any settled ok response counts
as success (the text body is not inspected); a thrown fetch or non-ok status
lands in the catch block. -/
def runZapierDispatch (env : NetEnv) : SinkResult :=
  match env.zapierFetch with
  | .error m => { success := false, error := some m }
  | .ok r =>
    if ¬ r.ok then
      { success := false, error := some ("HTTP " ++ toString r.status ++ ": " ++ r.statusText) }
    else
      { success := true, error := none }

/-- Embedding of `submitLead` (script.js lines 40–159), returning the result
together with the trace of network events it performed.  The two dispatches
are consecutive `await`s: the Google Sheets call is issued and fully settled
before the Zapier call is issued, so a validated run always produces the
four-event trace in that fixed order. -/
def submitLead (benv : BrowserEnv) (env : NetEnv) (u : UserData) :
    SubmitResult × List SubmitEvent :=
  match firstMissingField u with
  | some f =>
    ({ success := false, error := some ("Missing required field: " ++ f) }, [])
  | none =>
    let _payload := buildPayload benv u
    let g := runSheetsDispatch env
    let z := runZapierDispatch env
    let trace := [SubmitEvent.dispatchSheets, SubmitEvent.settleSheets,
                  SubmitEvent.dispatchZapier, SubmitEvent.settleZapier]
    let overallSuccess := g.success || z.success
    if ¬ overallSuccess then
      ({ success := false,
         error := some "Failed to save lead. Please try again or call us directly.",
         details := some (g, z) }, trace)
    else
      ({ success := true, details := some (g, z) }, trace)

/-! ## Webhook Receiver (`doPost` and `logError`, GOOGLE_APPS_SCRIPT.gs)

`JSON.parse` is platform code, so the parse outcome of the raw body travels
with it as an oracle: `parsed` is either the parse error's message or the
payload object.  A spreadsheet tab is `Option (List (List String))` — `none`
when the tab does not exist yet, rows (header included) once it does. -/

/-- Payload object as the receiver reads it; absent JSON keys are `none`. -/
structure ReceiverPayload where
  first_name : Option String := none
  last_name : Option String := none
  phone : Option String := none
  email : Option String := none
  zip : Option String := none
  quiz_answers : Option String := none
  page_url : Option String := none
  timestamp : Option String := none
  deriving DecidableEq

/-- The `e.postData` object: the raw body together with the platform's
`JSON.parse` outcome for it. -/
structure PostData where
  contents : String
  parsed : Except String ReceiverPayload

/-- The two tabs the receiver touches; `none` means the tab is absent. -/
structure SheetState where
  leads : Option (List (List String))
  errors : Option (List (List String))

/-- Fixed Leads column order (`LEAD_COLUMNS`, GOOGLE_APPS_SCRIPT.gs 26–35). -/
def LEAD_COLUMNS : List String :=
  ["Timestamp", "First Name", "Last Name", "Phone", "Email", "Zip Code",
   "Quiz Answers", "Source URL"]

/-- Header row of the Webhook Errors tab (GOOGLE_APPS_SCRIPT.gs line 161). -/
def ERROR_COLUMNS : List String :=
  ["Timestamp", "Error Message", "Stack Trace", "Raw Payload"]

/-- Response body of `doPost`, as serialized by `ContentService`. -/
inductive RespBody
  | ok (message : String) (timestamp : String)
  | failed (error : String)
  deriving DecidableEq

/-- Embedding of `logError` (GOOGLE_APPS_SCRIPT.gs lines 154–177): lazily
create the errors tab with its header, then append one row carrying the raw
body when the event had one and `"No payload"` otherwise.  The modelled error
has no stack, so the `error.stack || "No stack trace"` fallback fires. -/
def logError (now : String) (message : String) (event : Option PostData)
    (st : SheetState) : SheetState :=
  let rows := st.errors.getD [ERROR_COLUMNS]
  let rawPayload := match event with
    | some pd => pd.contents
    | none => "No payload"
  { st with errors := some (rows ++ [[now, message, "No stack trace", rawPayload]]) }

/-- Receiver required-field check (GOOGLE_APPS_SCRIPT.gs lines 61–66): the
loop visits `['first_name', 'email', 'phone', 'zip']` in order and throws on
the first falsy one (`!payload[field]`: absent or empty). -/
def firstMissingReceiverField (p : ReceiverPayload) : Option String :=
  if ¬ jsTruthy p.first_name then some "first_name"
  else if ¬ jsTruthy p.email then some "email"
  else if ¬ jsTruthy p.phone then some "phone"
  else if ¬ jsTruthy p.zip then some "zip"
  else none

/-- Row built from a validated payload (GOOGLE_APPS_SCRIPT.gs lines 94–103):
each `payload.x || ''` defaults an absent field to the empty string, the
timestamp falls back to the server clock, the phone is re-normalized. -/
def receiverRowData (now : String) (p : ReceiverPayload) : List String :=
  [jsOrStr p.timestamp now,
   (p.first_name).getD "",
   (p.last_name).getD "",
   receiverNormalizePhone ((p.phone).getD ""),
   (p.email).getD "",
   (p.zip).getD "",
   (p.quiz_answers).getD "",
   (p.page_url).getD ""]

/-- Embedding of `doPost` (GOOGLE_APPS_SCRIPT.gs lines 43–134).  The event is
`none` when `!e || !e.postData`.  Checks run in order — POST data present,
JSON parses, required fields — and the first failure throws into the catch
block, which logs to the errors tab and returns `{ success:false, error }`;
a validated payload is appended to the (lazily created) Leads tab and
acknowledged with `{ success:true, message, timestamp }`. -/
def doPost (now : String) (e : Option PostData) (st : SheetState) :
    RespBody × SheetState :=
  match e with
  | none =>
    (RespBody.failed "No POST data received",
     logError now "No POST data received" none st)
  | some pd =>
    match pd.parsed with
    | .error m =>
      let msg := "Invalid JSON payload: " ++ m
      (RespBody.failed msg, logError now msg (some pd) st)
    | .ok payload =>
      match firstMissingReceiverField payload with
      | some f =>
        let msg := "Missing required field: " ++ f
        (RespBody.failed msg, logError now msg (some pd) st)
      | none =>
        let rows := st.leads.getD [LEAD_COLUMNS]
        let rowData := receiverRowData now payload
        (RespBody.ok "Lead saved successfully" now,
         { st with leads := some (rows ++ [rowData]) })

/-! ## Quiz Controller final step (`handleNextStep`, script.js lines 296–430)

Only the step-4 submission path carries state relevant to re-entrancy.  The
asynchronous shape of the code — `isSubmitting = true` is set synchronously
before `await submitLead(...)`, the failure branch clears it synchronously,
the success branch clears it from a scheduled timeout — is modelled as an
event-step function over an explicit controller state. -/

/-- Controller state around the step-4 submission. -/
structure QuizState where
  isSubmitting : Bool
  pendingSubmission : Bool
  pendingTimeout : Bool
  dispatchCount : Nat
  step : Nat
  deriving DecidableEq

/-- Events hitting the controller: the user triggering the final step with a
validated phone value, the awaited `submitLead` settling, and the success
path's 1-second reset timeout firing. -/
inductive QuizEvent
  | triggerFinalStep
  | settled (success : Bool)
  | timeoutFired
  deriving DecidableEq

/-- Quiz state before any submission attempt, sitting on step 4. -/
def initQuizState : QuizState :=
  { isSubmitting := false, pendingSubmission := false, pendingTimeout := false,
    dispatchCount := 0, step := 4 }

/-- Event-step function for the step-4 path of `handleNextStep`:
`if (isSubmitting && stepIndex === 4) return;` guards the trigger; a trigger
sets the flag and starts one `submitLead` (one network dispatch pair); a
failed settle clears the flag at once (script.js line 403); a successful
settle advances to step 5 and schedules the timeout that clears the flag
(script.js lines 415–422). -/
def quizStep (st : QuizState) (ev : QuizEvent) : QuizState :=
  match ev with
  | .triggerFinalStep =>
    if st.isSubmitting then st
    else { st with isSubmitting := true, pendingSubmission := true,
                   dispatchCount := st.dispatchCount + 1 }
  | .settled ok =>
    if st.pendingSubmission then
      if ok then
        { st with pendingSubmission := false, pendingTimeout := true, step := 5 }
      else
        { st with pendingSubmission := false, isSubmitting := false }
    else st
  | .timeoutFired =>
    if st.pendingTimeout then
      { st with pendingTimeout := false, isSubmitting := false }
    else st

/-! ## Step-4 phone-format check (script.js lines 365–377)

The check is `/[\d\(\)\-\s]{10,}/.test(value)`: unanchored, so it succeeds
exactly when some 10 consecutive characters of the value all lie in the
class of digits, parentheses, hyphens and whitespace. -/

/-- Character class `[\d\(\)\-\s]` of the step-4 phone regex. -/
def isPhoneClassChar (c : Char) : Bool :=
  isJsDigit c ∨ c = '(' ∨ c = ')' ∨ c = '-' ∨ isJsWhitespace c

/-- Scan for ten consecutive class characters anywhere in the list. -/
def hasTenClassRun : List Char → Bool
  | [] => false
  | c :: rest =>
    (((c :: rest).take 10).all isPhoneClassChar && decide (9 ≤ rest.length))
      || hasTenClassRun rest

/-- Embedding of the step-4 test `/[\d\(\)\-\s]{10,}/.test(value)`: an
unanchored search for a block of at least ten class characters, which exists
exactly when ten consecutive class characters exist. -/
def phoneRegexTest (value : String) : Bool :=
  hasTenClassRun value.toList

/-- Step-4 acceptance path (script.js lines 365–377 and 386–387): a value
passing the regex is stored verbatim as `userData.phone`; a failing value is
rejected and nothing is stored. -/
def step4AcceptPhone (value : String) (u : UserData) : Option UserData :=
  if phoneRegexTest value then some { u with phone := some value } else none

/-! ## Concrete fixtures used by witnesses and counterexamples -/

/-- Browser ambience fixture. -/
def benv0 : BrowserEnv :=
  { abTestVariant := some "A", pageUrl := "https://x", nowIso := "2024-01-01T00:00:00Z" }

/-- User record fixture passing every client-side check. -/
def u0 : UserData :=
  { homeowner := some "yes", name := some "Jane Q Public", zip := some "13901",
    email := some "Jane@X.com", phone := some "607-555-1234" }

/-- Network oracle fixture in which both sinks fail with thrown fetches. -/
def envBothFail : NetEnv :=
  { sheetsFetch := .error "Failed to fetch",
    sheetsJson := .error "Unexpected end of JSON input",
    zapierFetch := .error "Failed to fetch" }

/-- Network oracle fixture in which the Google Sheets sink fails with an HTTP
error while the Zapier sink succeeds. -/
def envSheetsFail : NetEnv :=
  { sheetsFetch := .ok { ok := false, status := 500, statusText := "Internal Server Error" },
    sheetsJson := .error "Unexpected end of JSON input",
    zapierFetch := .ok { ok := true, status := 200, statusText := "OK" } }

/-- User record fixture whose `name` field was never filled in. -/
def uNoName : UserData :=
  { zip := some "13901", email := some "j@x.com", phone := some "6075551234" }

/-- Receiver payload fixture with no `email` key. -/
def pNoEmail : ReceiverPayload :=
  { first_name := some "Jane", phone := some "+16075551234", zip := some "13901" }

/-- POST body fixture for `pNoEmail`, with the platform parse succeeding. -/
def pdNoEmail : PostData :=
  { contents := "\x7b\"first_name\":\"Jane\"\x7d", parsed := Except.ok pNoEmail }

/-- Sheet-state fixture: both tabs exist and hold only their header rows. -/
def stHeaders : SheetState :=
  { leads := some [LEAD_COLUMNS], errors := some [ERROR_COLUMNS] }

/-- Receiver payload fixture of the spec's concrete example. -/
def payload9 : ReceiverPayload :=
  { first_name := some "Jane", last_name := some "", phone := some "+16075551234",
    email := some "jane@x.com", zip := some "13901", quiz_answers := some "\x7b...\x7d",
    page_url := some "https://x", timestamp := some "2024-01-01T00:00:00Z" }

/-- Raw body fixture accompanying `payload9`. -/
def raw9 : String :=
  "\x7b\"first_name\":\"Jane\",\"last_name\":\"\",\"phone\":\"+16075551234\",\"email\":\"jane@x.com\",\"zip\":\"13901\"\x7d"

/-- Row the receiver must append for `payload9`, in `LEAD_COLUMNS` order. -/
def row9 : List String :=
  ["2024-01-01T00:00:00Z", "Jane", "", "+16075551234", "jane@x.com", "13901",
   "\x7b...\x7d", "https://x"]

/-! ## Theorems -/

/-- C2: for a phone input whose stripped digit sequence has exactly 10 digits,
`formatPhoneE164` returns `+1` followed by those digits; for exactly 11 digits
starting with `1` it returns `+` followed by the digits unchanged; for every
other input it returns `+1` followed by the stripped digits. -/
theorem formatPhoneE164_spec (phone : String) :
    ((stripNonDigits phone).length = 10 →
      formatPhoneE164 phone = "+1" ++ stripNonDigits phone)
    ∧ ((stripNonDigits phone).length = 11 ∧ jsStartsWithChar (stripNonDigits phone) '1' = true →
      formatPhoneE164 phone = "+" ++ stripNonDigits phone)
    ∧ (¬ (stripNonDigits phone).length = 10 →
       ¬ ((stripNonDigits phone).length = 11 ∧ jsStartsWithChar (stripNonDigits phone) '1' = true) →
      formatPhoneE164 phone = "+1" ++ stripNonDigits phone) := by
  refine ⟨fun h => ?_, fun h => ?_, fun h10 h11 => ?_⟩
  · simp [formatPhoneE164, h]
  · simp [formatPhoneE164, h.1, h.2]
  · simp only [formatPhoneE164]
    rw [if_neg h10, if_neg h11]

/-- Witness for `formatPhoneE164_spec` at a concrete 10-digit input. -/
theorem formatPhoneE164_spec_witness :
    (stripNonDigits "607-555-1234").length = 10 ∧
      formatPhoneE164 "607-555-1234" = "+1" ++ stripNonDigits "607-555-1234" :=
  ⟨by decide, (formatPhoneE164_spec "607-555-1234").1 (by decide)⟩

/-- C8: whenever the trimmed name tokenizes as `p :: ps`, `splitName` returns
`p` as `first_name` and the remaining tokens joined with single spaces as
`last_name`; in particular a single-token name gets an empty `last_name`. -/
theorem splitName_spec (fullName p : String) (ps : List String)
    (h : jsSplitWs (jsTrim fullName) = p :: ps) :
    splitName fullName = (p, " ".intercalate ps)
    ∧ (ps = [] → (splitName fullName).2 = "") := by
  constructor
  · simp [splitName, h]
  · intro hps
    simp only [splitName, h, hps, List.drop_succ_cons, List.drop_nil]
    decide

/-- Witness for `splitName_spec` at a concrete multi-token name. -/
theorem splitName_spec_witness :
    jsSplitWs (jsTrim "  Jane  Q.  Public ") = ["Jane", "Q.", "Public"] ∧
      splitName "  Jane  Q.  Public " = ("Jane", " ".intercalate ["Q.", "Public"]) :=
  ⟨by decide, (splitName_spec "  Jane  Q.  Public " "Jane" ["Q.", "Public"] (by decide)).1⟩

/-- C3 counterexample: the receiver's phone normalization is not the client
algorithm.  On `"12345"` (five digits, no `+`) the client's fallback yields
`"+112345"` while the receiver keeps the string unchanged. -/
theorem receiver_phone_differs_from_client :
    receiverNormalizePhone "12345" = "12345"
    ∧ formatPhoneE164 "12345" = "+112345"
    ∧ receiverNormalizePhone "12345" ≠ formatPhoneE164 "12345" := by
  refine ⟨by decide, by decide, by decide⟩

/-- C3 amended: the receiver rewrites only a nonempty phone that does not
already start with `+` and whose stripped digits number exactly 10, or
exactly 11 starting with `1`; in exactly those cases it agrees with the
client's `formatPhoneE164`, and otherwise it returns the phone unchanged
(where the client would apply its `+1` fallback). -/
theorem receiverNormalizePhone_spec (phone : String) :
    receiverNormalizePhone phone =
      if phone ≠ "" ∧ ¬ jsStartsWithChar phone '+'
          ∧ ((stripNonDigits phone).length = 10
             ∨ ((stripNonDigits phone).length = 11
                ∧ jsStartsWithChar (stripNonDigits phone) '1' = true)) then
        formatPhoneE164 phone
      else
        phone := by
  simp only [receiverNormalizePhone, formatPhoneE164]
  split_ifs <;> first | rfl | tauto

/-- Failure of the Google Sheets dispatch always records an error message. -/
theorem runSheetsDispatch_failure_error (env : NetEnv)
    (h : (runSheetsDispatch env).success = false) :
    ((runSheetsDispatch env).error).isSome = true := by
  unfold runSheetsDispatch at h ⊢
  cases hf : env.sheetsFetch with
  | error m => simp
  | ok r =>
    rw [hf] at h
    by_cases hok : r.ok
    · simp only [hok, not_true, Bool.not_true, if_neg, Bool.false_eq_true,
        reduceIte] at h ⊢
      cases hj : env.sheetsJson with
      | error m => simp
      | ok d =>
        rw [hj] at h
        by_cases hs : d.success
        · simp [hs] at h
        · simp [hs]
    · simp [hok]

/-- Failure of the Zapier dispatch always records an error message. -/
theorem runZapierDispatch_failure_error (env : NetEnv)
    (h : (runZapierDispatch env).success = false) :
    ((runZapierDispatch env).error).isSome = true := by
  unfold runZapierDispatch at h ⊢
  cases hf : env.zapierFetch with
  | error m => simp
  | ok r =>
    rw [hf] at h
    by_cases hok : r.ok
    · simp [hok] at h
    · simp [hok]

/-- C1: for a user record passing field validation, `submitLead` succeeds
exactly when at least one of the two sink dispatches succeeds; when the two
sinks disagree the overall result is still success, and when both fail the
result carries the user-facing message together with both sinks' error
details. -/
theorem submitLead_or_aggregation (benv : BrowserEnv) (env : NetEnv) (u : UserData)
    (hvalid : firstMissingField u = none) :
    ((submitLead benv env u).1.success = true ↔
      ((runSheetsDispatch env).success = true ∨ (runZapierDispatch env).success = true))
    ∧ ((runSheetsDispatch env).success ≠ (runZapierDispatch env).success →
        (submitLead benv env u).1.success = true)
    ∧ ((runSheetsDispatch env).success = false → (runZapierDispatch env).success = false →
        (submitLead benv env u).1.success = false
        ∧ (submitLead benv env u).1.error =
            some "Failed to save lead. Please try again or call us directly."
        ∧ (submitLead benv env u).1.details =
            some (runSheetsDispatch env, runZapierDispatch env)
        ∧ ((runSheetsDispatch env).error).isSome = true
        ∧ ((runZapierDispatch env).error).isSome = true) := by
  refine ⟨?_, ?_, ?_⟩
  · cases hg : (runSheetsDispatch env).success <;>
      cases hz : (runZapierDispatch env).success <;>
      simp [submitLead, hvalid, hg, hz]
  · intro hne
    cases hg : (runSheetsDispatch env).success <;>
      cases hz : (runZapierDispatch env).success <;>
      first
        | (exfalso; rw [hg, hz] at hne; exact hne rfl)
        | simp [submitLead, hvalid, hg, hz]
  · intro hg hz
    refine ⟨?_, ?_, ?_, runSheetsDispatch_failure_error env hg,
            runZapierDispatch_failure_error env hz⟩ <;>
      simp [submitLead, hvalid, hg, hz]

/-- Witness for `submitLead_or_aggregation` at a both-sinks-fail fixture. -/
theorem submitLead_or_aggregation_witness :
    firstMissingField u0 = none
    ∧ (((submitLead benv0 envBothFail u0).1.success = true ↔
        ((runSheetsDispatch envBothFail).success = true
          ∨ (runZapierDispatch envBothFail).success = true))
      ∧ ((runSheetsDispatch envBothFail).success ≠ (runZapierDispatch envBothFail).success →
          (submitLead benv0 envBothFail u0).1.success = true)
      ∧ ((runSheetsDispatch envBothFail).success = false →
          (runZapierDispatch envBothFail).success = false →
          (submitLead benv0 envBothFail u0).1.success = false
          ∧ (submitLead benv0 envBothFail u0).1.error =
              some "Failed to save lead. Please try again or call us directly."
          ∧ (submitLead benv0 envBothFail u0).1.details =
              some (runSheetsDispatch envBothFail, runZapierDispatch envBothFail)
          ∧ ((runSheetsDispatch envBothFail).error).isSome = true
          ∧ ((runZapierDispatch envBothFail).error).isSome = true)) :=
  ⟨by decide, submitLead_or_aggregation benv0 envBothFail u0 (by decide)⟩

/-- C4: a user record with a missing or blank required field makes
`submitLead` return the field-naming failure result, and its network trace is
empty — validation precedes and forecloses any dispatch. -/
theorem submitLead_validation_precedes_network (benv : BrowserEnv) (env : NetEnv)
    (u : UserData) (f : String) (h : firstMissingField u = some f) :
    (submitLead benv env u).1 =
      { success := false, error := some ("Missing required field: " ++ f), details := none }
    ∧ (submitLead benv env u).2 = ([] : List SubmitEvent) := by
  constructor <;> simp [submitLead, h]

/-- Witness for `submitLead_validation_precedes_network`: a record with no
name yields the naming error and no network events. -/
theorem submitLead_validation_precedes_network_witness :
    firstMissingField uNoName = some "name"
    ∧ (submitLead benv0 envBothFail uNoName).1 =
        { success := false, error := some ("Missing required field: " ++ "name"),
          details := none }
    ∧ (submitLead benv0 envBothFail uNoName).2 = ([] : List SubmitEvent) := by
  refine ⟨by decide, ?_, ?_⟩
  · exact (submitLead_validation_precedes_network benv0 envBothFail uNoName "name" (by decide)).1
  · exact (submitLead_validation_precedes_network benv0 envBothFail uNoName "name" (by decide)).2

/-- C7 counterexample: the two dispatches are not issued concurrently.  On a
concrete validated run the trace settles the Google Sheets call strictly
before the Zapier call is dispatched, so the second dispatch waits on the
first. -/
theorem submitLead_dispatches_not_concurrent :
    (submitLead benv0 envSheetsFail u0).2 =
      [SubmitEvent.dispatchSheets, SubmitEvent.settleSheets,
       SubmitEvent.dispatchZapier, SubmitEvent.settleZapier]
    ∧ (submitLead benv0 envSheetsFail u0).2.indexOf SubmitEvent.settleSheets
        < (submitLead benv0 envSheetsFail u0).2.indexOf SubmitEvent.dispatchZapier := by
  refine ⟨by decide, by decide⟩

/-- C7 amended: the two dispatches are sequential — the Google Sheets call is
issued and settled before the Zapier call is issued — yet independent in
outcome: both always run for a validated record, failure of one does not
remove the other from the trace, and the overall result is aggregated from
both settled outcomes. -/
theorem submitLead_sequential_fanout (benv : BrowserEnv) (env : NetEnv) (u : UserData)
    (hvalid : firstMissingField u = none) :
    (submitLead benv env u).2 =
      [SubmitEvent.dispatchSheets, SubmitEvent.settleSheets,
       SubmitEvent.dispatchZapier, SubmitEvent.settleZapier]
    ∧ (submitLead benv env u).1.details = some (runSheetsDispatch env, runZapierDispatch env)
    ∧ (submitLead benv env u).1.success
        = ((runSheetsDispatch env).success || (runZapierDispatch env).success) := by
  cases hg : (runSheetsDispatch env).success <;>
    cases hz : (runZapierDispatch env).success <;>
    simp [submitLead, hvalid, hg, hz]

/-- Witness for `submitLead_sequential_fanout` at a fixture where the first
sink fails and the second succeeds. -/
theorem submitLead_sequential_fanout_witness :
    firstMissingField u0 = none
    ∧ ((submitLead benv0 envSheetsFail u0).2 =
        [SubmitEvent.dispatchSheets, SubmitEvent.settleSheets,
         SubmitEvent.dispatchZapier, SubmitEvent.settleZapier]
      ∧ (submitLead benv0 envSheetsFail u0).1.details =
          some (runSheetsDispatch envSheetsFail, runZapierDispatch envSheetsFail)
      ∧ (submitLead benv0 envSheetsFail u0).1.success
          = ((runSheetsDispatch envSheetsFail).success
              || (runZapierDispatch envSheetsFail).success)) :=
  ⟨by decide, submitLead_sequential_fanout benv0 envSheetsFail u0 (by decide)⟩

/-- C6: while the in-flight flag is set, triggering the final step starts no
second submission; a rapid double-trigger from an idle state yields exactly
one dispatch pair; and the flag is eventually cleared on both the failure
path (synchronously) and the success path (by the scheduled timeout). -/
theorem quiz_reentrancy_guard (st : QuizState) :
    (st.isSubmitting = true → quizStep st QuizEvent.triggerFinalStep = st)
    ∧ (st.isSubmitting = false →
        (quizStep (quizStep st QuizEvent.triggerFinalStep) QuizEvent.triggerFinalStep).dispatchCount
          = st.dispatchCount + 1)
    ∧ (st.pendingSubmission = true →
        (quizStep st (QuizEvent.settled false)).isSubmitting = false)
    ∧ (st.pendingSubmission = true →
        (quizStep (quizStep st (QuizEvent.settled true)) QuizEvent.timeoutFired).isSubmitting
          = false) := by
  refine ⟨fun h => ?_, fun h => ?_, fun h => ?_, fun h => ?_⟩
  · simp [quizStep, h]
  · simp [quizStep, h]
  · simp [quizStep, h]
  · simp [quizStep, h]

/-- Witness for `quiz_reentrancy_guard`: from the initial state a rapid
double-trigger performs exactly one dispatch pair. -/
theorem quiz_reentrancy_guard_witness :
    initQuizState.isSubmitting = false
    ∧ (quizStep (quizStep initQuizState QuizEvent.triggerFinalStep)
        QuizEvent.triggerFinalStep).dispatchCount = initQuizState.dispatchCount + 1 :=
  ⟨by decide, (quiz_reentrancy_guard initQuizState).2.1 (by decide)⟩

/-- C5: receiver checks run in order — POST data present, JSON parses, then
the required fields `first_name`, `email`, `phone`, `zip` — and the first
failure short-circuits into a structured error response plus an error-log row
carrying the raw unparsed body (or `"No payload"` when none arrived); the
Leads tab is untouched on every failure, and a payload missing only `email`
is reported as `Missing required field: email`. -/
theorem doPost_validation_order (now : String) (st : SheetState) :
    (doPost now none st =
      (RespBody.failed "No POST data received",
       { st with errors := some ((st.errors.getD [ERROR_COLUMNS])
           ++ [[now, "No POST data received", "No stack trace", "No payload"]]) }))
    ∧ (∀ raw m : String,
        doPost now (some { contents := raw, parsed := .error m }) st =
          (RespBody.failed ("Invalid JSON payload: " ++ m),
           { st with errors := some ((st.errors.getD [ERROR_COLUMNS])
               ++ [[now, "Invalid JSON payload: " ++ m, "No stack trace", raw]]) }))
    ∧ (∀ (raw f : String) (p : ReceiverPayload),
        firstMissingReceiverField p = some f →
          doPost now (some { contents := raw, parsed := .ok p }) st =
            (RespBody.failed ("Missing required field: " ++ f),
             { st with errors := some ((st.errors.getD [ERROR_COLUMNS])
                 ++ [[now, "Missing required field: " ++ f, "No stack trace", raw]]) }))
    ∧ (∀ p : ReceiverPayload,
        jsTruthy p.first_name = true → jsTruthy p.email = false →
          firstMissingReceiverField p = some "email") := by
  refine ⟨?_, fun raw m => ?_, fun raw f p hp => ?_, fun p h1 h2 => ?_⟩
  · simp [doPost, logError]
  · simp [doPost, logError]
  · simp [doPost, logError, hp]
  · simp [firstMissingReceiverField, h1, h2]

/-- Witness for `doPost_validation_order`: a parsed body whose `email` is
absent draws the email-naming error and an error-log row with the raw body. -/
theorem doPost_validation_order_witness :
    firstMissingReceiverField pNoEmail = some "email"
    ∧ doPost "2024-06-01T00:00:00Z" (some pdNoEmail) stHeaders =
        (RespBody.failed ("Missing required field: " ++ "email"),
         { stHeaders with errors := some ((stHeaders.errors.getD [ERROR_COLUMNS])
             ++ [["2024-06-01T00:00:00Z", "Missing required field: " ++ "email",
                  "No stack trace", pdNoEmail.contents]]) }) :=
  ⟨by decide,
    (doPost_validation_order "2024-06-01T00:00:00Z" stHeaders).2.2.1
      pdNoEmail.contents "email" pNoEmail (by decide)⟩

/-- C9: posting the spec's concrete Jane payload to the receiver yields the
success acknowledgment and appends exactly one new row — `row9`, matching the
payload tuple in the fixed column order — to whatever Leads rows already
exist, leaving the error log untouched. -/
theorem doPost_concrete_append (now : String) (rows errRows : List (List String)) :
    doPost now (some { contents := raw9, parsed := Except.ok payload9 })
        { leads := some rows, errors := some errRows } =
      (RespBody.ok "Lead saved successfully" now,
       { leads := some (rows ++ [row9]), errors := some errRows }) := by
  have hval : firstMissingReceiverField payload9 = none := by decide
  have hphone : receiverNormalizePhone "+16075551234" = "+16075551234" := by decide
  simp only [doPost, hval]
  simp [receiverRowData, payload9, row9, jsOrStr, hphone]

/-- Ten consecutive characters of the phone class occur in a list exactly when
the scanning search `hasTenClassRun` reports a hit. -/
theorem hasTenClassRun_iff (cs : List Char) :
    hasTenClassRun cs = true ↔
      ∃ i, i + 10 ≤ cs.length ∧ ((cs.drop i).take 10).all isPhoneClassChar = true := by
  induction cs with
  | nil =>
    simp only [hasTenClassRun, List.length_nil]
    constructor
    · intro h; simp at h
    · rintro ⟨i, hi, _⟩; omega
  | cons c rest ih =>
    simp only [hasTenClassRun, Bool.or_eq_true, Bool.and_eq_true, decide_eq_true_eq, ih]
    constructor
    · rintro (⟨hall, hlen⟩ | ⟨i, hi, hall⟩)
      · exact ⟨0, by simp [List.length_cons]; omega, by simpa using hall⟩
      · refine ⟨i + 1, by simp [List.length_cons]; omega, ?_⟩
        simpa [List.drop_succ_cons] using hall
    · rintro ⟨i, hi, hall⟩
      match i with
      | 0 =>
        refine Or.inl ⟨by simpa using hall, ?_⟩
        simp [List.length_cons] at hi; omega
      | j + 1 =>
        refine Or.inr ⟨j, ?_, ?_⟩
        · simp [List.length_cons] at hi; omega
        · simpa [List.drop_succ_cons] using hall

/-- C10: the step-4 phone check is an unanchored search — it accepts a value
exactly when some ten consecutive characters all lie in the class of digits,
parentheses, hyphens and whitespace, so values with surrounding letters, or
with more than 11 digits, pass and are stored verbatim as the phone field. -/
theorem step4_phone_regex_unanchored :
    (∀ value : String, phoneRegexTest value = true ↔
       ∃ i, i + 10 ≤ value.toList.length
         ∧ ((value.toList.drop i).take 10).all isPhoneClassChar = true)
    ∧ phoneRegexTest "abc(607) 555-1234xyz" = true
    ∧ phoneRegexTest "ab1234567890123456yz" = true
    ∧ (∀ (value : String) (u : UserData), phoneRegexTest value = true →
        step4AcceptPhone value u = some { u with phone := some value }) := by
  refine ⟨fun value => hasTenClassRun_iff value.toList, by decide, by decide,
          fun value u h => ?_⟩
  simp [step4AcceptPhone, h]

/-- Witness for `step4_phone_regex_unanchored`: a letter-flanked value passes
the check and is stored verbatim. -/
theorem step4_phone_regex_unanchored_witness :
    phoneRegexTest "abc(607) 555-1234xyz" = true
    ∧ step4AcceptPhone "abc(607) 555-1234xyz" u0 =
        some { u0 with phone := some "abc(607) 555-1234xyz" } :=
  ⟨by decide,
    step4_phone_regex_unanchored.2.2.2 "abc(607) 555-1234xyz" u0 (by decide)⟩
